import Mathlib

/-!
Verification of the per-frame simulation step of a two-paddle Pong game
(`pong_game.py`). Positions and velocities are machine integers (pygame
rects store ints), so the embedding uses `Int` throughout. The random
sign choices made by `Ball.reset` are passed in as explicit boolean
parameters, and the key events driving the player paddle are passed in
as an explicit per-frame command.
-/

namespace Pong

/-- Global game parameter WIDTH = 800. -/
def WIDTH : Int := 800

/-- Global game parameter HEIGHT = 600. -/
def HEIGHT : Int := 600

/-- A pygame rect: top-left corner, width, height (all ints). -/
structure Rect where
  x : Int
  y : Int
  w : Int
  h : Int
deriving DecidableEq

/-- rect.top -/
def Rect.top (r : Rect) : Int := r.y

/-- rect.bottom -/
def Rect.bottom (r : Rect) : Int := r.y + r.h

/-- rect.centerx (pygame computes x + w // 2). -/
def Rect.centerx (r : Rect) : Int := r.x + r.w / 2

/-- rect.centery (pygame computes y + h // 2). -/
def Rect.centery (r : Rect) : Int := r.y + r.h / 2

/-- pygame Rect.colliderect: strict overlap test on both axes. -/
def Rect.colliderect (a b : Rect) : Bool :=
  decide (a.x < b.x + b.w) && decide (b.x < a.x + a.w) &&
  decide (a.y < b.y + b.h) && decide (b.y < a.y + a.h)

/-- Ball: bounding rect, fixed movement speed, per-axis velocity. -/
structure Ball where
  rect : Rect
  movement_speed : Int
  x_vel : Int
  y_vel : Int
deriving DecidableEq

/-- Paddle: rect, fixed movement speed, current vertical velocity. -/
structure Paddle where
  rect : Rect
  movement_speed : Int
  y_vel : Int
deriving DecidableEq

/-- Lines 51-52 of Ball.update: rect.x += x_vel; rect.y += y_vel. -/
def Ball.moveStep (b : Ball) : Ball :=
  { b with rect := { b.rect with x := b.rect.x + b.x_vel, y := b.rect.y + b.y_vel } }

/-- Lines 54-56 of Ball.update: if rect.top < 0 or rect.bottom > HEIGHT,
    then y_vel *= -1 and rect.y += y_vel (the new y_vel). -/
def Ball.wallBounce (b : Ball) : Ball :=
  if b.rect.top < 0 ∨ HEIGHT < b.rect.bottom then
    { b with y_vel := -b.y_vel, rect := { b.rect with y := b.rect.y + -b.y_vel } }
  else b

/-- Lines 60-64 of Ball.update, the body of the paddle loop: on collision,
    x_vel *= -1; rect.x += x_vel; y_vel *= -1; rect.y += y_vel. -/
def Ball.paddleBounce (b : Ball) (p : Paddle) : Ball :=
  if b.rect.colliderect p.rect then
    { b with
      x_vel := -b.x_vel
      y_vel := -b.y_vel
      rect := { b.rect with x := b.rect.x + -b.x_vel, y := b.rect.y + -b.y_vel } }
  else b

/-- Ball.update(paddles): move, bounce off walls, then loop over the paddles. -/
def Ball.update (b : Ball) (paddles : List Paddle) : Ball :=
  paddles.foldl Ball.paddleBounce b.moveStep.wallBounce

/-- Number of paddle-collision events fired while the paddle loop of
    Ball.update runs from state b (instrumentation for counting flips). -/
def Ball.collCount (b : Ball) : List Paddle → Nat
  | [] => 0
  | p :: ps =>
    (if b.rect.colliderect p.rect then 1 else 0) + Ball.collCount (b.paddleBounce p) ps

/-- Ball.reset: rect.center = (WIDTH/2, HEIGHT/2); each velocity component
    is reassigned to plus-or-minus movement_speed; the two random sign
    choices are the parameters sx, sy. -/
def Ball.reset (b : Ball) (sx sy : Bool) : Ball :=
  { b with
    rect := { b.rect with x := WIDTH / 2 - b.rect.w / 2, y := HEIGHT / 2 - b.rect.h / 2 }
    x_vel := if sx then -b.movement_speed else b.movement_speed
    y_vel := if sy then -b.movement_speed else b.movement_speed }

/-- Paddle.update: rect.y += y_vel; clamp top to 0, else clamp bottom to HEIGHT. -/
def Paddle.update (p : Paddle) : Paddle :=
  let moved : Paddle := { p with rect := { p.rect with y := p.rect.y + p.y_vel } }
  if moved.rect.top ≤ 0 then { moved with rect := { moved.rect with y := 0 } }
  else if HEIGHT ≤ moved.rect.bottom then
    { moved with rect := { moved.rect with y := HEIGHT - moved.rect.h } }
  else moved

/-- Paddle.move_up: y_vel = -movement_speed. -/
def Paddle.move_up (p : Paddle) : Paddle := { p with y_vel := -p.movement_speed }

/-- Paddle.move_down: y_vel = movement_speed. -/
def Paddle.move_down (p : Paddle) : Paddle := { p with y_vel := p.movement_speed }

/-- Paddle.move_stop: y_vel = 0. -/
def Paddle.move_stop (p : Paddle) : Paddle := { p with y_vel := 0 }

/-- SimpleAI.move: compare ball.rect.centery with paddle.rect.centery and
    move the owned paddle toward the ball, or stop when exactly aligned. -/
def SimpleAI.move (ball : Ball) (p : Paddle) : Paddle :=
  if ball.rect.centery < p.rect.centery then p.move_up
  else if p.rect.centery < ball.rect.centery then p.move_down
  else p.move_stop

/-- Game state: screen size, the ball, the two paddles (player owns the
    first, the AI the second), and the two score counters. -/
structure Game where
  width : Int
  height : Int
  ball : Ball
  playerPaddle : Paddle
  aiPaddle : Paddle
  playerScore : Nat
  aiScore : Nat
deriving DecidableEq

/-- Lines 238-243 of Game.check_boundaries: if ball.rect.x <= 0, reset the
    ball and increment the AI score; elif ball.rect.x + ball.rect.width >=
    self.width, reset the ball and increment the player score. -/
def Game.scoreStep (g : Game) (sx sy : Bool) : Game :=
  if g.ball.rect.x ≤ 0 then
    { g with ball := g.ball.reset sx sy, aiScore := g.aiScore + 1 }
  else if g.width ≤ g.ball.rect.x + g.ball.rect.w then
    { g with ball := g.ball.reset sx sy, playerScore := g.playerScore + 1 }
  else g

/-- Lines 245-248 of Game.check_boundaries: if ball.rect.y <= 0, set
    y_vel = abs(y_vel); elif ball.rect.y + ball.rect.height >= self.height,
    set y_vel = -abs(y_vel). -/
def Game.wallVelStep (g : Game) : Game :=
  if g.ball.rect.y ≤ 0 then
    { g with ball := { g.ball with y_vel := |g.ball.y_vel| } }
  else if g.height ≤ g.ball.rect.y + g.ball.rect.h then
    { g with ball := { g.ball with y_vel := -|g.ball.y_vel| } }
  else g

/-- Game.check_boundaries: the scoring branch followed by the vertical
    velocity correction, exactly in source order. -/
def Game.check_boundaries (g : Game) (sx sy : Bool) : Game :=
  (g.scoreStep sx sy).wallVelStep

/-- Net effect of the key events of one frame on the player paddle. -/
inductive PlayerMove where
  | up
  | down
  | stop
  | idle
deriving DecidableEq

/-- Apply the net player command, as Player.handle_event would. -/
def applyPlayerMove : PlayerMove → Paddle → Paddle
  | PlayerMove.up, p => p.move_up
  | PlayerMove.down, p => p.move_down
  | PlayerMove.stop, p => p.move_stop
  | PlayerMove.idle, p => p

/-- handle_events of one frame: apply the net player command, then ai.move. -/
def Game.inputPhase (g : Game) (pm : PlayerMove) : Game :=
  { g with
    playerPaddle := applyPlayerMove pm g.playerPaddle
    aiPaddle := SimpleAI.move g.ball g.aiPaddle }

/-- First statement of Game.update: self.ball.update(self.paddles). -/
def Game.ballPhase (g : Game) : Game :=
  { g with ball := g.ball.update [g.playerPaddle, g.aiPaddle] }

/-- Last statements of Game.update: each paddle updates. -/
def Game.paddlePhase (g : Game) : Game :=
  { g with playerPaddle := g.playerPaddle.update, aiPaddle := g.aiPaddle.update }

/-- One iteration of the game loop (render and clock tick omitted):
    handle_events (player command, then ai.move), then Game.update
    (ball.update(paddles), check_boundaries, paddle updates). -/
def Game.frame (g : Game) (pm : PlayerMove) (sx sy : Bool) : Game :=
  (((g.inputPhase pm).ballPhase).check_boundaries sx sy).paddlePhase

/-- Run the game loop over a list of per-frame inputs. -/
def Game.run (g : Game) : List (PlayerMove × Bool × Bool) → Game
  | [] => g
  | (pm, sx, sy) :: rest => (g.frame pm sx sy).run rest

/-- Concrete ball used by witnesses: strictly inside vertically, about to
    hit the left paddle from the right. -/
def ballW : Ball :=
  { rect := { x := 34, y := 300, w := 20, h := 20 }
    movement_speed := 6, x_vel := -6, y_vel := 6 }

/-- Concrete left (player) paddle used by witnesses. -/
def padL : Paddle :=
  { rect := { x := 20, y := 250, w := 10, h := 100 }, movement_speed := 5, y_vel := 0 }

/-- Concrete right (AI) paddle used by witnesses. -/
def padR : Paddle :=
  { rect := { x := 780, y := 250, w := 10, h := 100 }, movement_speed := 5, y_vel := 0 }

/-- Concrete game used by the C2 counterexample: the ball collides with the
    left paddle this frame while staying strictly inside vertically. -/
def gC2 : Game :=
  { width := 800, height := 600, ball := ballW
    playerPaddle := padL, aiPaddle := padR, playerScore := 0, aiScore := 0 }

/-- Concrete game used by the C6 counterexample: the ball is strictly inside

    the field (0 < x < width) yet its right edge is past the right screen edge. -/
def gC6 : Game :=
  { width := 800, height := 600
    ball := { rect := { x := 790, y := 300, w := 20, h := 20 }
              movement_speed := 6, x_vel := 6, y_vel := 6 }
    playerPaddle := padL, aiPaddle := padR, playerScore := 0, aiScore := 0 }

/-- Concrete game used by scoring witnesses: ball at the left edge. -/
def gLeft : Game :=
  { width := 800, height := 600
    ball := { rect := { x := 0, y := 300, w := 20, h := 20 }
              movement_speed := 6, x_vel := -6, y_vel := 6 }
    playerPaddle := padL, aiPaddle := padR, playerScore := 3, aiScore := 4 }

/-- Concrete game used by scoring witnesses: ball at the right edge. -/
def gRight : Game :=
  { width := 800, height := 600
    ball := { rect := { x := 800, y := 300, w := 20, h := 20 }
              movement_speed := 6, x_vel := 6, y_vel := 6 }
    playerPaddle := padL, aiPaddle := padR, playerScore := 3, aiScore := 4 }

/-- Concrete game used by the C10 witness: ball past the top edge. -/
def gTop : Game :=
  { width := 800, height := 600
    ball := { rect := { x := 400, y := -3, w := 20, h := 20 }
              movement_speed := 6, x_vel := 6, y_vel := -6 }
    playerPaddle := padL, aiPaddle := padR, playerScore := 0, aiScore := 0 }

/-- Concrete ball whose center is exactly level with the padL center. -/
def ballMid : Ball :=
  { rect := { x := 400, y := 290, w := 20, h := 20 }
    movement_speed := 6, x_vel := 6, y_vel := 6 }

/-- Folding the paddle-bounce body over a list of paddles multiplies each
    velocity component by -1 once per collision event fired along the way. -/
theorem foldl_paddleBounce_vel (ps : List Paddle) (b : Ball) :
    (ps.foldl Ball.paddleBounce b).x_vel = (-1) ^ b.collCount ps * b.x_vel ∧
    (ps.foldl Ball.paddleBounce b).y_vel = (-1) ^ b.collCount ps * b.y_vel := by
  induction ps generalizing b with
  | nil => simp [Ball.collCount]
  | cons p ps ih =>
    simp only [List.foldl_cons, Ball.collCount]
    by_cases hc : b.rect.colliderect p.rect = true
    · rcases ih (b.paddleBounce p) with ⟨hx, hy⟩
      have hxv : (b.paddleBounce p).x_vel = -b.x_vel := by
        simp [Ball.paddleBounce, hc]
      have hyv : (b.paddleBounce p).y_vel = -b.y_vel := by
        simp [Ball.paddleBounce, hc]
      rw [hc]
      constructor
      · rw [hx, hxv]
        simp only [if_true]
        rw [pow_add]
        ring
      · rw [hy, hyv]
        simp only [if_true]
        rw [pow_add]
        ring
    · have hb : b.paddleBounce p = b := by
        simp [Ball.paddleBounce, hc]
      rw [hb]
      rcases ih b with ⟨hx, hy⟩
      simp [hc, hx, hy]

/-- The move step does not change either velocity component. -/
theorem moveStep_vel (b : Ball) :
    b.moveStep.x_vel = b.x_vel ∧ b.moveStep.y_vel = b.y_vel := ⟨rfl, rfl⟩

/-- The wall bounce does not change the horizontal velocity, and negates
    the vertical velocity exactly when the wall condition holds. -/
theorem wallBounce_vel (b : Ball) :
    b.wallBounce.x_vel = b.x_vel ∧
    b.wallBounce.y_vel =
      (if b.rect.top < 0 ∨ HEIGHT < b.rect.bottom then -b.y_vel else b.y_vel) := by
  unfold Ball.wallBounce
  split_ifs <;> exact ⟨rfl, rfl⟩

/-- Claim C1: during Ball.update, each paddle-collision event inverts the
    sign of the horizontal velocity exactly once: the final x_vel equals
    (-1) to the number of collision events times the initial x_vel, and in
    particular a collision with a single paddle inverts the sign once. -/
theorem update_flips_x_vel_once_per_collision (b : Ball) (ps : List Paddle) :
    (b.update ps).x_vel = (-1) ^ b.moveStep.wallBounce.collCount ps * b.x_vel ∧
    ∀ p : Paddle, b.moveStep.wallBounce.rect.colliderect p.rect = true →
      (b.update [p]).x_vel = -b.x_vel := by
  have hbase : b.moveStep.wallBounce.x_vel = b.x_vel := by
    rw [(wallBounce_vel b.moveStep).1, (moveStep_vel b).1]
  constructor
  · rw [Ball.update, (foldl_paddleBounce_vel ps b.moveStep.wallBounce).1, hbase]
  · intro p hp
    rw [Ball.update, List.foldl_cons, List.foldl_nil]
    have hxv : (b.moveStep.wallBounce.paddleBounce p).x_vel =
        -b.moveStep.wallBounce.x_vel := by
      simp [Ball.paddleBounce, hp]
    rw [hxv, hbase]

/-- Witness for C1: a concrete ball colliding with a concrete paddle has its
    horizontal velocity sign inverted by the update. -/
theorem update_flips_x_vel_once_per_collision_witness :
    ballW.moveStep.wallBounce.rect.colliderect padL.rect = true ∧
    (ballW.update [padL]).x_vel = -ballW.x_vel :=
  ⟨by decide, (update_flips_x_vel_once_per_collision ballW [padL]).2 padL (by decide)⟩

/-- Claim C2 counterexample: a concrete frame in which the ball stays
    strictly between the top and bottom boundaries at every step, yet its
    vertical velocity sign flips, because the paddle-collision branch of
    Ball.update also negates y_vel. -/
theorem frame_flips_y_vel_without_wall_crossing :
    (gC2.frame PlayerMove.idle true true).ball.y_vel = -gC2.ball.y_vel ∧
    0 ≤ gC2.ball.rect.top ∧ gC2.ball.rect.bottom ≤ HEIGHT ∧
    0 ≤ gC2.ball.moveStep.rect.top ∧ gC2.ball.moveStep.rect.bottom ≤ HEIGHT ∧
    0 < (gC2.frame PlayerMove.idle true true).ball.rect.y ∧
    (gC2.frame PlayerMove.idle true true).ball.rect.y +
      (gC2.frame PlayerMove.idle true true).ball.rect.h < HEIGHT := by
  decide

/-- Claim C2 (amended): during Ball.update the vertical velocity sign flips
    once if the top or bottom edge has crossed the screen boundary after the
    move, and once more for each paddle-collision event of the same update. -/
theorem update_y_vel_flip_events (b : Ball) (ps : List Paddle) :
    (b.update ps).y_vel =
      (-1) ^ b.moveStep.wallBounce.collCount ps *
        (if b.moveStep.rect.top < 0 ∨ HEIGHT < b.moveStep.rect.bottom then -b.y_vel
         else b.y_vel) := by
  have hbase : b.moveStep.wallBounce.y_vel =
      (if b.moveStep.rect.top < 0 ∨ HEIGHT < b.moveStep.rect.bottom then -b.y_vel
       else b.y_vel) := by
    rw [(wallBounce_vel b.moveStep).2, (moveStep_vel b).2]
  rw [Ball.update, (foldl_paddleBounce_vel ps b.moveStep.wallBounce).2, hbase]

/-- Claim C3: after Paddle.update (y += velocity then clamp), the vertical
    position lies within [0, HEIGHT - height], for any in-range prior
    position and any velocity. -/
theorem paddle_update_stays_in_range (p : Paddle)
    (h0 : 0 ≤ p.rect.y) (h1 : p.rect.y ≤ HEIGHT - p.rect.h) :
    0 ≤ p.update.rect.y ∧ p.update.rect.y ≤ HEIGHT - p.update.rect.h := by
  unfold Paddle.update
  simp only [Rect.top, Rect.bottom, HEIGHT] at *
  split_ifs <;> simp_all <;> omega

/-- Witness for C3: a concrete in-range paddle stays in range after update. -/
theorem paddle_update_stays_in_range_witness :
    0 ≤ padL.rect.y ∧ padL.rect.y ≤ HEIGHT - padL.rect.h ∧
    0 ≤ padL.update.rect.y ∧ padL.update.rect.y ≤ HEIGHT - padL.update.rect.h :=
  ⟨by decide, by decide,
    (paddle_update_stays_in_range padL (by decide) (by decide)).1,
    (paddle_update_stays_in_range padL (by decide) (by decide)).2⟩

/-- Claim C4: if the ball is at or past the left edge, check_boundaries
    increments the AI (opponent) score by exactly 1, leaves the player
    score unchanged, and recenters the ball; if the ball is at or past the
    right edge of the screen, it increments the player score by exactly 1,
    leaves the AI score unchanged, and recenters the ball. -/
theorem check_boundaries_scoring (g : Game) (sx sy : Bool) :
    (g.ball.rect.x ≤ 0 →
      (g.check_boundaries sx sy).aiScore = g.aiScore + 1 ∧
      (g.check_boundaries sx sy).playerScore = g.playerScore ∧
      (g.check_boundaries sx sy).ball.rect.centerx = WIDTH / 2 ∧
      (g.check_boundaries sx sy).ball.rect.centery = HEIGHT / 2) ∧
    (0 < g.width → 0 ≤ g.ball.rect.w → g.width ≤ g.ball.rect.x →
      (g.check_boundaries sx sy).playerScore = g.playerScore + 1 ∧
      (g.check_boundaries sx sy).aiScore = g.aiScore ∧
      (g.check_boundaries sx sy).ball.rect.centerx = WIDTH / 2 ∧
      (g.check_boundaries sx sy).ball.rect.centery = HEIGHT / 2) := by
  constructor
  · intro hx
    unfold Game.check_boundaries Game.scoreStep
    rw [if_pos hx]
    unfold Game.wallVelStep Ball.reset Rect.centerx Rect.centery
    split_ifs <;> refine ⟨rfl, rfl, ?_, ?_⟩ <;> simp
  · intro hw hbw hx
    have hnot : ¬ g.ball.rect.x ≤ 0 := by omega
    have hright : g.width ≤ g.ball.rect.x + g.ball.rect.w := by omega
    unfold Game.check_boundaries Game.scoreStep
    rw [if_neg hnot, if_pos hright]
    unfold Game.wallVelStep Ball.reset Rect.centerx Rect.centery
    split_ifs <;> refine ⟨rfl, rfl, ?_, ?_⟩ <;> simp

/-- Witness for C4: both scoring branches at concrete games. -/
theorem check_boundaries_scoring_witness :
    (gLeft.ball.rect.x ≤ 0 ∧
      (gLeft.check_boundaries true false).aiScore = gLeft.aiScore + 1 ∧
      (gLeft.check_boundaries true false).playerScore = gLeft.playerScore ∧
      (gLeft.check_boundaries true false).ball.rect.centerx = WIDTH / 2 ∧
      (gLeft.check_boundaries true false).ball.rect.centery = HEIGHT / 2) ∧
    (gRight.width ≤ gRight.ball.rect.x ∧
      (gRight.check_boundaries false true).playerScore = gRight.playerScore + 1 ∧
      (gRight.check_boundaries false true).aiScore = gRight.aiScore ∧
      (gRight.check_boundaries false true).ball.rect.centerx = WIDTH / 2 ∧
      (gRight.check_boundaries false true).ball.rect.centery = HEIGHT / 2) :=
  ⟨⟨by decide, (check_boundaries_scoring gLeft true false).1 (by decide)⟩,
   ⟨by decide,
    (check_boundaries_scoring gRight false true).2 (by decide) (by decide) (by decide)⟩⟩

/-- Claim C5: after Ball.reset the ball center equals the exact screen
    center, each velocity component has magnitude movement_speed, and each
    sign is set independently by its own random choice. -/
theorem reset_recenters_with_fixed_speed (b : Ball) (sx sy : Bool)
    (hs : 0 ≤ b.movement_speed) :
    (b.reset sx sy).rect.centerx = WIDTH / 2 ∧
    (b.reset sx sy).rect.centery = HEIGHT / 2 ∧
    |(b.reset sx sy).x_vel| = b.movement_speed ∧
    |(b.reset sx sy).y_vel| = b.movement_speed ∧
    (b.reset sx sy).x_vel = (if sx then -b.movement_speed else b.movement_speed) ∧
    (b.reset sx sy).y_vel = (if sy then -b.movement_speed else b.movement_speed) := by
  unfold Ball.reset Rect.centerx Rect.centery
  refine ⟨by simp, by simp, ?_, ?_, rfl, rfl⟩
  · cases sx <;> simp [abs_of_nonneg, hs]
  · cases sy <;> simp [abs_of_nonneg, hs]

/-- Witness for C5 at a concrete ball and sign choices. -/
theorem reset_recenters_with_fixed_speed_witness :
    0 ≤ ballW.movement_speed ∧
    (ballW.reset true false).rect.centerx = WIDTH / 2 ∧
    (ballW.reset true false).rect.centery = HEIGHT / 2 ∧
    |(ballW.reset true false).x_vel| = ballW.movement_speed ∧
    |(ballW.reset true false).y_vel| = ballW.movement_speed ∧
    (ballW.reset true false).x_vel = -ballW.movement_speed ∧
    (ballW.reset true false).y_vel = ballW.movement_speed := by
  have h := reset_recenters_with_fixed_speed ballW true false (by decide)
  exact ⟨by decide, h.1, h.2.1, h.2.2.1, h.2.2.2.1, h.2.2.2.2.1, h.2.2.2.2.2⟩

/-- Claim C6 counterexample: a concrete game whose ball is strictly inside
    the field (0 < x < width), yet check_boundaries increments the player
    score and moves the ball, because the code scores whenever
    x + ball_width >= width. -/
theorem check_boundaries_inside_scores_anyway :
    0 < gC6.ball.rect.x ∧ gC6.ball.rect.x < gC6.width ∧
    (gC6.check_boundaries true true).playerScore ≠ gC6.playerScore ∧
    (gC6.check_boundaries true true).ball.rect.x ≠ gC6.ball.rect.x := by
  decide

/-- Claim C6 (amended): when the whole ball is strictly inside the field
    horizontally (0 < x and x + width < screen width), check_boundaries
    changes neither score and leaves the ball rect unchanged. -/
theorem check_boundaries_inside_no_change (g : Game) (sx sy : Bool)
    (h0 : 0 < g.ball.rect.x) (h1 : g.ball.rect.x + g.ball.rect.w < g.width) :
    (g.check_boundaries sx sy).playerScore = g.playerScore ∧
    (g.check_boundaries sx sy).aiScore = g.aiScore ∧
    (g.check_boundaries sx sy).ball.rect = g.ball.rect := by
  have hn0 : ¬ g.ball.rect.x ≤ 0 := by omega
  have hn1 : ¬ g.width ≤ g.ball.rect.x + g.ball.rect.w := by omega
  unfold Game.check_boundaries Game.scoreStep
  rw [if_neg hn0, if_neg hn1]
  unfold Game.wallVelStep
  split_ifs <;> exact ⟨rfl, rfl, rfl⟩

/-- Witness for C6 (amended) at a concrete strictly-inside game. -/
theorem check_boundaries_inside_no_change_witness :
    0 < gC2.ball.rect.x ∧ gC2.ball.rect.x + gC2.ball.rect.w < gC2.width ∧
    (gC2.check_boundaries true true).playerScore = gC2.playerScore ∧
    (gC2.check_boundaries true true).aiScore = gC2.aiScore ∧
    (gC2.check_boundaries true true).ball.rect = gC2.ball.rect :=
  ⟨by decide, by decide,
    (check_boundaries_inside_no_change gC2 true true (by decide) (by decide)).1,
    (check_boundaries_inside_no_change gC2 true true (by decide) (by decide)).2.1,
    (check_boundaries_inside_no_change gC2 true true (by decide) (by decide)).2.2⟩

/-- Multiplying by a sign power does not change the absolute value. -/
theorem abs_neg_one_pow_mul (n : Nat) (v : Int) : |(-1) ^ n * v| = |v| := by
  rw [abs_mul, abs_pow, abs_neg, abs_one, one_pow, one_mul]

/-- Ball.update preserves the absolute value of both velocity components. -/
theorem update_abs_vel (b : Ball) (ps : List Paddle) :
    |(b.update ps).x_vel| = |b.x_vel| ∧ |(b.update ps).y_vel| = |b.y_vel| := by
  have h := foldl_paddleBounce_vel ps b.moveStep.wallBounce
  rw [Ball.update]
  constructor
  · rw [h.1, abs_neg_one_pow_mul, (wallBounce_vel b.moveStep).1, (moveStep_vel b).1]
  · rw [h.2, abs_neg_one_pow_mul, (wallBounce_vel b.moveStep).2, (moveStep_vel b).2]
    split_ifs <;> simp

/-- Game.check_boundaries preserves the per-axis speed magnitude of the
    ball, given the incoming magnitudes equal movement_speed. -/
theorem check_boundaries_abs_vel (g : Game) (sx sy : Bool)
    (hx : |g.ball.x_vel| = g.ball.movement_speed)
    (hy : |g.ball.y_vel| = g.ball.movement_speed) :
    |(g.check_boundaries sx sy).ball.x_vel| = g.ball.movement_speed ∧
    |(g.check_boundaries sx sy).ball.y_vel| = g.ball.movement_speed := by
  have hs : 0 ≤ g.ball.movement_speed := hx ▸ abs_nonneg _
  unfold Game.check_boundaries Game.scoreStep Game.wallVelStep Ball.reset
  split_ifs <;> cases sx <;> cases sy <;> simp_all [abs_of_nonneg hs]

/-- Claim C7: the per-axis speed magnitudes are invariant across
    Ball.update, Ball.reset and Game.check_boundaries: bounces only flip
    signs and reset reassigns the same fixed movement speed. -/
theorem speed_magnitudes_invariant (b : Ball) (ps : List Paddle) (g : Game) (sx sy : Bool)
    (hbx : |b.x_vel| = b.movement_speed) (hby : |b.y_vel| = b.movement_speed)
    (hgx : |g.ball.x_vel| = g.ball.movement_speed)
    (hgy : |g.ball.y_vel| = g.ball.movement_speed) :
    (|(b.update ps).x_vel| = b.movement_speed ∧
     |(b.update ps).y_vel| = b.movement_speed) ∧
    (|(b.reset sx sy).x_vel| = b.movement_speed ∧
     |(b.reset sx sy).y_vel| = b.movement_speed) ∧
    (|(g.check_boundaries sx sy).ball.x_vel| = g.ball.movement_speed ∧
     |(g.check_boundaries sx sy).ball.y_vel| = g.ball.movement_speed) := by
  have hs : 0 ≤ b.movement_speed := hbx ▸ abs_nonneg _
  refine ⟨⟨?_, ?_⟩, ⟨?_, ?_⟩, check_boundaries_abs_vel g sx sy hgx hgy⟩
  · rw [(update_abs_vel b ps).1, hbx]
  · rw [(update_abs_vel b ps).2, hby]
  · unfold Ball.reset; cases sx <;> simp [abs_of_nonneg hs]
  · unfold Ball.reset; cases sy <;> simp [abs_of_nonneg hs]

/-- Witness for C7 at a concrete ball, paddle list and game. -/
theorem speed_magnitudes_invariant_witness :
    (|ballW.x_vel| = ballW.movement_speed ∧ |ballW.y_vel| = ballW.movement_speed ∧
     |gC2.ball.x_vel| = gC2.ball.movement_speed ∧
     |gC2.ball.y_vel| = gC2.ball.movement_speed) ∧
    ((|(ballW.update [padL]).x_vel| = ballW.movement_speed ∧
      |(ballW.update [padL]).y_vel| = ballW.movement_speed) ∧
     (|(ballW.reset true false).x_vel| = ballW.movement_speed ∧
      |(ballW.reset true false).y_vel| = ballW.movement_speed) ∧
     (|(gC2.check_boundaries true false).ball.x_vel| = gC2.ball.movement_speed ∧
      |(gC2.check_boundaries true false).ball.y_vel| = gC2.ball.movement_speed)) :=
  ⟨⟨by decide, by decide, by decide, by decide⟩,
   speed_magnitudes_invariant ballW [padL] gC2 true false
     (by decide) (by decide) (by decide) (by decide)⟩

/-- Claim C8: SimpleAI.move sets the paddle velocity to -speed when the
    ball center is above the paddle center, to +speed when it is below,
    and to 0 when the two are exactly equal. -/
theorem simpleai_tracks_ball (ball : Ball) (p : Paddle) :
    (ball.rect.centery < p.rect.centery →
      (SimpleAI.move ball p).y_vel = -p.movement_speed) ∧
    (p.rect.centery < ball.rect.centery →
      (SimpleAI.move ball p).y_vel = p.movement_speed) ∧
    (ball.rect.centery = p.rect.centery → (SimpleAI.move ball p).y_vel = 0) := by
  unfold SimpleAI.move Paddle.move_up Paddle.move_down Paddle.move_stop
  refine ⟨fun h => ?_, fun h => ?_, fun h => ?_⟩
  · rw [if_pos h]
  · rw [if_neg (by omega), if_pos h]
  · rw [if_neg (by omega), if_neg (by omega)]

/-- Witness for C8: all three tracking cases at concrete inputs. -/
theorem simpleai_tracks_ball_witness :
    (gTop.ball.rect.centery < padL.rect.centery ∧
      (SimpleAI.move gTop.ball padL).y_vel = -padL.movement_speed) ∧
    (padL.rect.centery < ballW.rect.centery ∧
      (SimpleAI.move ballW padL).y_vel = padL.movement_speed) ∧
    (ballMid.rect.centery = padL.rect.centery ∧
      (SimpleAI.move ballMid padL).y_vel = 0) :=
  ⟨⟨by decide, (simpleai_tracks_ball gTop.ball padL).1 (by decide)⟩,
   ⟨by decide, (simpleai_tracks_ball ballW padL).2.1 (by decide)⟩,
   ⟨by decide, (simpleai_tracks_ball ballMid padL).2.2 (by decide)⟩⟩

/-- One check_boundaries call leaves both scores no smaller, raises each by
    at most one, leaves at least one of them unchanged, and raises the sum
    by at most one. -/
theorem scores_step_bound (g : Game) (sx sy : Bool) :
    g.playerScore ≤ (g.check_boundaries sx sy).playerScore ∧
    g.aiScore ≤ (g.check_boundaries sx sy).aiScore ∧
    ((g.check_boundaries sx sy).playerScore = g.playerScore ∨
      (g.check_boundaries sx sy).aiScore = g.aiScore) ∧
    (g.check_boundaries sx sy).playerScore + (g.check_boundaries sx sy).aiScore
      ≤ g.playerScore + g.aiScore + 1 := by
  unfold Game.check_boundaries Game.scoreStep Game.wallVelStep
  split_ifs <;> simp <;> omega

/-- One frame of the game loop never decreases either score. -/
theorem frame_scores_mono (g : Game) (pm : PlayerMove) (sx sy : Bool) :
    g.playerScore ≤ (g.frame pm sx sy).playerScore ∧
    g.aiScore ≤ (g.frame pm sx sy).aiScore := by
  have h := scores_step_bound ((g.inputPhase pm).ballPhase) sx sy
  exact ⟨h.1, h.2.1⟩

/-- Any run of the game loop never decreases either score. -/
theorem run_scores_mono (g : Game) (inputs : List (PlayerMove × Bool × Bool)) :
    g.playerScore ≤ (g.run inputs).playerScore ∧
    g.aiScore ≤ (g.run inputs).aiScore := by
  induction inputs generalizing g with
  | nil => exact ⟨le_refl _, le_refl _⟩
  | cons i rest ih =>
    obtain ⟨pm, sx, sy⟩ := i
    have h1 := frame_scores_mono g pm sx sy
    have h2 := ih (g.frame pm sx sy)
    exact ⟨le_trans h1.1 h2.1, le_trans h1.2 h2.2⟩

/-- Claim C9: each check_boundaries call increments at most one of the two
    scores, by at most 1, and both scores are monotonically non-decreasing
    over every run of the game loop. -/
theorem scores_at_most_one_increment_and_monotone (g : Game) (sx sy : Bool)
    (inputs : List (PlayerMove × Bool × Bool)) :
    (g.playerScore ≤ (g.check_boundaries sx sy).playerScore ∧
     g.aiScore ≤ (g.check_boundaries sx sy).aiScore ∧
     ((g.check_boundaries sx sy).playerScore = g.playerScore ∨
       (g.check_boundaries sx sy).aiScore = g.aiScore) ∧
     (g.check_boundaries sx sy).playerScore + (g.check_boundaries sx sy).aiScore
       ≤ g.playerScore + g.aiScore + 1) ∧
    (g.playerScore ≤ (g.run inputs).playerScore ∧
     g.aiScore ≤ (g.run inputs).aiScore) :=
  ⟨scores_step_bound g sx sy, run_scores_mono g inputs⟩

/-- The vertical correction of check_boundaries does not move the ball and
    keeps the screen size. -/
theorem wallVelStep_fields (g : Game) :
    (g.wallVelStep).ball.rect = g.ball.rect ∧
    (g.wallVelStep).width = g.width ∧ (g.wallVelStep).height = g.height := by
  unfold Game.wallVelStep
  split_ifs <;> exact ⟨rfl, rfl, rfl⟩

/-- The resulting vertical velocity of the wall correction, as a function
    of the incoming state. -/
theorem wallVelStep_y_vel (g : Game) :
    (g.wallVelStep).ball.y_vel =
      (if g.ball.rect.y ≤ 0 then |g.ball.y_vel|
       else if g.height ≤ g.ball.rect.y + g.ball.rect.h then -|g.ball.y_vel|
       else g.ball.y_vel) := by
  unfold Game.wallVelStep
  split_ifs <;> rfl

/-- The scoring branch keeps the screen size and the ball dimensions. -/
theorem scoreStep_frame_fields (g : Game) (sx sy : Bool) :
    (g.scoreStep sx sy).width = g.width ∧ (g.scoreStep sx sy).height = g.height ∧
    (g.scoreStep sx sy).ball.rect.w = g.ball.rect.w ∧
    (g.scoreStep sx sy).ball.rect.h = g.ball.rect.h := by
  unfold Game.scoreStep Ball.reset
  split_ifs <;> exact ⟨rfl, rfl, rfl, rfl⟩

/-- When the ball is neither at the left scoring edge nor at the right
    scoring edge, the scoring branch changes nothing. -/
theorem scoreStep_no_score (h : Game) (tx ty : Bool)
    (h1 : ¬ h.ball.rect.x ≤ 0) (h2 : ¬ h.width ≤ h.ball.rect.x + h.ball.rect.w) :
    h.scoreStep tx ty = h := by
  unfold Game.scoreStep
  rw [if_neg h1, if_neg h2]

/-- After the wall correction, a ball resting at or past the top edge has a
    non-negative vertical velocity. -/
theorem wallVel_top_sign (g1 : Game)
    (hy : (g1.wallVelStep).ball.rect.y ≤ 0) :
    0 ≤ (g1.wallVelStep).ball.y_vel := by
  rw [(wallVelStep_fields g1).1] at hy
  rw [wallVelStep_y_vel, if_pos hy]
  exact abs_nonneg _

/-- After the wall correction, a ball shorter than the screen resting at or
    past the bottom edge has a non-positive vertical velocity. -/
theorem wallVel_bottom_sign (g1 : Game)
    (hh : (g1.wallVelStep).ball.rect.h < g1.height)
    (hb : g1.height ≤ (g1.wallVelStep).ball.rect.y + (g1.wallVelStep).ball.rect.h) :
    (g1.wallVelStep).ball.y_vel ≤ 0 := by
  rw [(wallVelStep_fields g1).1] at hh hb
  rw [wallVelStep_y_vel, if_neg (by omega), if_pos (by omega)]
  exact neg_nonpos.mpr (abs_nonneg _)

/-- Claim C10: after check_boundaries, a ball at or past the top edge has
    non-negative vertical velocity (equal to its absolute value), a ball
    shorter than the screen at or past the bottom edge has non-positive
    vertical velocity, and a further check_boundaries call on a ball still
    past an edge (and not in a scoring region) does not flip it back. -/
theorem check_boundaries_vertical_velocity (g : Game) (sx sy tx ty : Bool) :
    ((g.check_boundaries sx sy).ball.rect.y ≤ 0 →
      0 ≤ (g.check_boundaries sx sy).ball.y_vel ∧
      (g.check_boundaries sx sy).ball.y_vel = |(g.check_boundaries sx sy).ball.y_vel|) ∧
    (g.ball.rect.h < g.height →
      g.height ≤ (g.check_boundaries sx sy).ball.rect.y +
        (g.check_boundaries sx sy).ball.rect.h →
      (g.check_boundaries sx sy).ball.y_vel ≤ 0 ∧
      (g.check_boundaries sx sy).ball.y_vel = -|(g.check_boundaries sx sy).ball.y_vel|) ∧
    (0 < (g.check_boundaries sx sy).ball.rect.x →
      (g.check_boundaries sx sy).ball.rect.x + (g.check_boundaries sx sy).ball.rect.w
        < g.width →
      ((g.check_boundaries sx sy).ball.rect.y ≤ 0 ∨
        (g.ball.rect.h < g.height ∧
          g.height ≤ (g.check_boundaries sx sy).ball.rect.y +
            (g.check_boundaries sx sy).ball.rect.h)) →
      ((g.check_boundaries sx sy).check_boundaries tx ty).ball.y_vel =
        (g.check_boundaries sx sy).ball.y_vel) := by
  unfold Game.check_boundaries
  have e1 : ((g.scoreStep sx sy).wallVelStep).ball.rect.h = g.ball.rect.h := by
    rw [(wallVelStep_fields _).1, (scoreStep_frame_fields g sx sy).2.2.2]
  have e2 : (g.scoreStep sx sy).height = g.height :=
    (scoreStep_frame_fields g sx sy).2.1
  have e3 : ((g.scoreStep sx sy).wallVelStep).height = g.height := by
    rw [(wallVelStep_fields _).2.2, e2]
  have e4 : ((g.scoreStep sx sy).wallVelStep).width = g.width := by
    rw [(wallVelStep_fields _).2.1, (scoreStep_frame_fields g sx sy).1]
  refine ⟨fun hy => ?_, fun hh hb => ?_, fun hx1 hx2 hcase => ?_⟩
  · have h0 : 0 ≤ ((g.scoreStep sx sy).wallVelStep).ball.y_vel :=
      wallVel_top_sign (g.scoreStep sx sy) hy
    exact ⟨h0, (abs_of_nonneg h0).symm⟩
  · have hh1 : ((g.scoreStep sx sy).wallVelStep).ball.rect.h < (g.scoreStep sx sy).height := by
      omega
    have hb1 : (g.scoreStep sx sy).height ≤
        ((g.scoreStep sx sy).wallVelStep).ball.rect.y +
          ((g.scoreStep sx sy).wallVelStep).ball.rect.h := by
      omega
    have h0 : ((g.scoreStep sx sy).wallVelStep).ball.y_vel ≤ 0 :=
      wallVel_bottom_sign (g.scoreStep sx sy) hh1 hb1
    refine ⟨h0, ?_⟩
    rw [abs_of_nonpos h0]
    omega
  · have hCs : (((g.scoreStep sx sy).wallVelStep).scoreStep tx ty) =
        ((g.scoreStep sx sy).wallVelStep) :=
      scoreStep_no_score _ tx ty (by omega) (by omega)
    rw [hCs]
    rcases hcase with hy | ⟨hh, hb⟩
    · have h0 : 0 ≤ ((g.scoreStep sx sy).wallVelStep).ball.y_vel :=
        wallVel_top_sign (g.scoreStep sx sy) hy
      rw [wallVelStep_y_vel, if_pos hy]
      exact abs_of_nonneg h0
    · have hh1 : ((g.scoreStep sx sy).wallVelStep).ball.rect.h < (g.scoreStep sx sy).height := by
        omega
      have hb1 : (g.scoreStep sx sy).height ≤
          ((g.scoreStep sx sy).wallVelStep).ball.rect.y +
            ((g.scoreStep sx sy).wallVelStep).ball.rect.h := by
        omega
      have h0 : ((g.scoreStep sx sy).wallVelStep).ball.y_vel ≤ 0 :=
        wallVel_bottom_sign (g.scoreStep sx sy) hh1 hb1
      rw [wallVelStep_y_vel,
        if_neg (by omega : ¬ ((g.scoreStep sx sy).wallVelStep).ball.rect.y ≤ 0),
        if_pos (by omega :
          ((g.scoreStep sx sy).wallVelStep).height ≤
            ((g.scoreStep sx sy).wallVelStep).ball.rect.y +
              ((g.scoreStep sx sy).wallVelStep).ball.rect.h)]
      rw [abs_of_nonpos h0]
      omega

/-- Witness for C10 at a concrete game whose ball is past the top edge. -/
theorem check_boundaries_vertical_velocity_witness :
    ((gTop.check_boundaries true true).ball.rect.y ≤ 0 ∧
      0 ≤ (gTop.check_boundaries true true).ball.y_vel) ∧
    ((gTop.check_boundaries true true).check_boundaries false false).ball.y_vel =
      (gTop.check_boundaries true true).ball.y_vel :=
  ⟨⟨by decide,
    ((check_boundaries_vertical_velocity gTop true true false false).1 (by decide)).1⟩,
   (check_boundaries_vertical_velocity gTop true true false false).2.2
     (by decide) (by decide) (Or.inl (by decide))⟩

end Pong
